import Mathlib

/-!
Shallow embedding of the alert engine of `src/models/alert.js`
(mongoose model `Alert`), covering:

* the alert record's fields read or written by the engine,
* the virtuals `isExpired` and `canTriggerAgain` (the trigger gate),
* the instance methods `checkConditions` (condition evaluator),
  `trigger`, `reset`, `snooze`, `cancel`, `enable`, `disable`.

Modelling decisions, each taken from the JavaScript source:

* `Date` values are milliseconds since the epoch, as `Int`; JS date
  arithmetic (`new Date() - lastSent`, `expiresAt < new Date()`,
  `snoozeUntil > new Date()`) is integer arithmetic on milliseconds.
* JS numbers are modelled as `JSNum`: an exact rational together with
  the IEEE special values `NaN`, `+Infinity`, `-Infinity`.  Rounding of
  finite results is not modelled; every theorem below evaluates the
  arithmetic only at points where the double computation is exact
  (comparisons of given inputs, division by zero, NaN propagation).
  An absent (`undefined`) field used in arithmetic becomes `NaN`,
  exactly as in JS.
* `await this.save()` persists the in-memory mutations unconditionally
  (mongoose issues a plain `$set` update; the schema's `version` field
  is never read or incremented and no conditional write exists), so a
  method-call is a pure function `Alert → Alert`.  The `emit` call in
  `trigger` has no listener and is dropped.
* Mongoose materialises nested schema objects, so `stock.dailyData`
  exists whenever the stock document does; its `previousClose` path has
  no default and is `undefined` (here `none`) when unset.
-/

/-- JS numbers as used by `checkConditions`: exact rationals plus the
IEEE-754 special values that arise from division by zero and from
arithmetic on `undefined`. -/
inductive JSNum where
  | nan : JSNum
  | inf : JSNum
  | ninf : JSNum
  | fin : ℚ → JSNum
deriving DecidableEq, Repr

namespace JSNum

/-- JS subtraction `x - y` on the modelled values. -/
def sub : JSNum → JSNum → JSNum
  | nan, _ => nan
  | _, nan => nan
  | inf, inf => nan
  | inf, ninf => inf
  | inf, fin _ => inf
  | ninf, ninf => nan
  | ninf, inf => ninf
  | ninf, fin _ => ninf
  | fin _, inf => ninf
  | fin _, ninf => inf
  | fin a, fin b => fin (a - b)

/-- JS division `x / y`; a finite nonzero numerator over zero yields a
signed infinity and `0 / 0` yields `NaN`, as in IEEE-754. -/
def div : JSNum → JSNum → JSNum
  | nan, _ => nan
  | _, nan => nan
  | inf, inf => nan
  | inf, ninf => nan
  | ninf, inf => nan
  | ninf, ninf => nan
  | inf, fin b => if b < 0 then ninf else inf
  | ninf, fin b => if b < 0 then inf else ninf
  | fin _, inf => fin 0
  | fin _, ninf => fin 0
  | fin a, fin b =>
      if b = 0 then
        if a > 0 then inf else if a < 0 then ninf else nan
      else fin (a / b)

/-- JS multiplication by the literal `100` (the only multiplication the
evaluator performs); `100` is positive so signs are preserved. -/
def mul100 : JSNum → JSNum
  | nan => nan
  | inf => inf
  | ninf => ninf
  | fin a => fin (100 * a)

/-- JS comparison `x >= y`: any comparison involving `NaN` is false. -/
def ge : JSNum → JSNum → Bool
  | nan, _ => false
  | _, nan => false
  | inf, _ => true
  | ninf, ninf => true
  | ninf, _ => false
  | fin _, ninf => true
  | fin _, inf => false
  | fin a, fin b => decide (b ≤ a)

end JSNum

/-- Reading a possibly-`undefined` numeric field for use in arithmetic:
`undefined` enters JS arithmetic as `NaN`. -/
def toJSNum : Option ℚ → JSNum
  | none => JSNum.nan
  | some q => JSNum.fin q

/-- The `condition.type` enum of the alert schema. -/
inductive ConditionType where
  | PRICE_ABOVE
  | PRICE_BELOW
  | PRICE_PERCENT_UP
  | PRICE_PERCENT_DOWN
  | VOLUME_ABOVE
  | VOLUME_BELOW
  | PRICE_CHANGE_UP
  | PRICE_CHANGE_DOWN
deriving DecidableEq, Repr

/-- The `status` enum of the alert schema. -/
inductive AlertStatus where
  | ACTIVE
  | TRIGGERED
  | CANCELLED
  | EXPIRED
  | DISABLED
deriving DecidableEq, Repr

/-- The `condition` subdocument (the fields the engine reads). -/
structure AlertCondition where
  type : ConditionType
  targetValue : ℚ
deriving DecidableEq, Repr

/-- The `notification` subdocument (the fields the engine reads or
writes). -/
structure NotificationPolicy where
  lastSent : Option Int
  sendCount : Nat
  maxSends : Nat
  cooldownMinutes : Nat
deriving DecidableEq, Repr

/-- The `userPreferences` subdocument. -/
structure UserPreferences where
  snoozeUntil : Option Int
  isMuted : Bool
  customSound : Option String
  vibration : Bool
deriving DecidableEq, Repr

/-- The `triggerData` subdocument; `conditionsMet` is a map from
condition-type to boolean, kept here as an association list. -/
structure TriggerData where
  priceAtTrigger : Option ℚ
  volumeAtTrigger : Option ℚ
  changeAtTrigger : Option ℚ
  conditionsMet : List (ConditionType × Bool)
deriving DecidableEq, Repr

/-- The empty `triggerData` (`this.triggerData = {}` cast through the
schema defaults: all nulls and an empty map). -/
def TriggerData.empty : TriggerData :=
  { priceAtTrigger := none, volumeAtTrigger := none,
    changeAtTrigger := none, conditionsMet := [] }

/-- The `currentPrice` subdocument of the populated stock
(`src/models/stock.js`); `change` defaults to `0`. -/
structure StockCurrentPrice where
  price : ℚ
  change : ℚ
deriving DecidableEq, Repr

/-- The `dailyData` subdocument of the populated stock; `previousClose`
has no default and may be unset. -/
structure StockDailyData where
  previousClose : Option ℚ
deriving DecidableEq, Repr

/-- The populated `stock` document as `checkConditions` and `trigger`
read it. -/
structure StockDoc where
  currentPrice : Option StockCurrentPrice
  dailyData : StockDailyData
deriving DecidableEq, Repr

/-- The alert record: every field the modelled methods read or write. -/
structure Alert where
  condition : AlertCondition
  status : AlertStatus
  isActive : Bool
  notification : NotificationPolicy
  triggeredAt : Option Int
  triggerCount : Nat
  triggerData : TriggerData
  expiresAt : Option Int
  userPreferences : UserPreferences
  stock : Option StockDoc
  version : Nat
deriving DecidableEq, Repr

namespace Alert

/-- Virtual `isExpired`: `if (!this.expiresAt) return false;
return this.expiresAt < new Date();`. -/
def isExpired (a : Alert) (now : Int) : Bool :=
  match a.expiresAt with
  | none => false
  | some e => decide (e < now)

/-- The snooze test inside `canTriggerAgain`:
`this.userPreferences.snoozeUntil && this.userPreferences.snoozeUntil > new Date()`
(a set `Date` is always truthy, `null` is falsy). -/
def snoozeBlocked (a : Alert) (now : Int) : Bool :=
  match a.userPreferences.snoozeUntil with
  | none => false
  | some s => decide (now < s)

/-- Virtual `canTriggerAgain` (the trigger gate), line by line from the
source: status, expiry, send-quota, snooze, then cooldown. -/
def canTriggerAgain (a : Alert) (now : Int) : Bool :=
  if a.status ≠ AlertStatus.ACTIVE then false
  else if a.isExpired now then false
  else if a.notification.sendCount ≥ a.notification.maxSends then false
  else if a.snoozeBlocked now then false
  else
    match a.notification.lastSent with
    | some t =>
        if a.notification.cooldownMinutes > 0 then
          decide (now - t > (a.notification.cooldownMinutes : Int) * 60 * 1000)
        else true
    | none => true

/-- Instance method `checkConditions(currentPrice, volume = null)`.
The guard is `if (!stock || !stock.currentPrice) return false`.  The
percentage and change conditions read `stock.dailyData.previousClose`;
`volume && volume >= target` is JS truthiness: a `null` or `0` volume
short-circuits to a falsy result. -/
def checkConditions (a : Alert) (currentPrice : ℚ) (volume : Option ℚ) : Bool :=
  match a.stock with
  | none => false
  | some stock =>
    match stock.currentPrice with
    | none => false
    | some _ =>
      let target := a.condition.targetValue
      let prevClose := toJSNum stock.dailyData.previousClose
      match a.condition.type with
      | ConditionType.PRICE_ABOVE => decide (target ≤ currentPrice)
      | ConditionType.PRICE_BELOW => decide (currentPrice ≤ target)
      | ConditionType.PRICE_PERCENT_UP =>
          JSNum.ge (JSNum.mul100 (JSNum.div (JSNum.sub (JSNum.fin currentPrice) prevClose) prevClose))
            (JSNum.fin target)
      | ConditionType.PRICE_PERCENT_DOWN =>
          JSNum.ge (JSNum.mul100 (JSNum.div (JSNum.sub prevClose (JSNum.fin currentPrice)) prevClose))
            (JSNum.fin target)
      | ConditionType.VOLUME_ABOVE =>
          match volume with
          | none => false
          | some v => if v = 0 then false else decide (target ≤ v)
      | ConditionType.VOLUME_BELOW =>
          match volume with
          | none => false
          | some v => if v = 0 then false else decide (v ≤ target)
      | ConditionType.PRICE_CHANGE_UP =>
          JSNum.ge (JSNum.sub (JSNum.fin currentPrice) prevClose) (JSNum.fin target)
      | ConditionType.PRICE_CHANGE_DOWN =>
          JSNum.ge (JSNum.sub prevClose (JSNum.fin currentPrice)) (JSNum.fin target)

/-- `this.stock?.currentPrice?.change || 0` from `trigger`: the optional
chain yields `undefined` when the stock or its price block is missing,
and `|| 0` turns any falsy result into `0`. -/
def changeAtTriggerValue (a : Alert) : ℚ :=
  match a.stock with
  | none => 0
  | some stock =>
    match stock.currentPrice with
    | none => 0
    | some cp => cp.change

/-- Instance method `trigger(currentPrice, volume = null)`: sets the
commit fields, increments the counters, records the trigger snapshot,
and deactivates the alert once the send quota is reached; the `save` is
an unconditional write and the `emit` has no listener. -/
def trigger (a : Alert) (now : Int) (currentPrice : ℚ) (volume : Option ℚ) : Alert :=
  let a1 : Alert :=
    { a with
      status := AlertStatus.TRIGGERED,
      triggeredAt := some now,
      triggerCount := a.triggerCount + 1,
      triggerData :=
        { priceAtTrigger := some currentPrice,
          volumeAtTrigger := volume,
          changeAtTrigger := some a.changeAtTriggerValue,
          conditionsMet := [(a.condition.type, true)] },
      notification :=
        { a.notification with
          lastSent := some now,
          sendCount := a.notification.sendCount + 1 } }
  if a1.notification.sendCount ≥ a1.notification.maxSends then
    { a1 with isActive := false }
  else a1

/-- Instance method `reset()`: unconditional field writes; no status
check and no write to `isActive` or `userPreferences`. -/
def reset (a : Alert) : Alert :=
  { a with
    status := AlertStatus.ACTIVE,
    triggeredAt := none,
    triggerData := TriggerData.empty,
    notification := { a.notification with sendCount := 0, lastSent := none } }

/-- Instance method `snooze(minutes = 60)`. -/
def snooze (a : Alert) (now : Int) (minutes : Nat) : Alert :=
  { a with
    userPreferences :=
      { a.userPreferences with snoozeUntil := some (now + (minutes : Int) * 60 * 1000) } }

/-- Instance method `cancel()`. -/
def cancel (a : Alert) : Alert :=
  { a with status := AlertStatus.CANCELLED, isActive := false }

/-- Instance method `enable()`: unconditional; no status check. -/
def enable (a : Alert) : Alert :=
  { a with status := AlertStatus.ACTIVE, isActive := true }

/-- Instance method `disable()`: unconditional; no status check. -/
def disable (a : Alert) : Alert :=
  { a with status := AlertStatus.DISABLED, isActive := false }

end Alert

/-- Two overlapping scans race on one alert: both `trigger()` calls read
the same committed document `s0`, each computes its update from its own
read, and each `save()` writes unconditionally.  The pair is the two
states the respective callers committed; the store ends at the second
write (a lost update). -/
def concurrentTriggerRace (s0 : Alert) (n1 n2 : Int) (p1 p2 : ℚ)
    (v1 v2 : Option ℚ) : Alert × Alert :=
  (s0.trigger n1 p1 v1, s0.trigger n2 p2 v2)

/-- A concrete, fully eligible alert used by the closed theorems below:
`ACTIVE`, armed, quota unreached, no snooze, no cooldown, stock
populated with price 100 and previous close 100. -/
def baseAlert : Alert :=
  { condition := { type := ConditionType.PRICE_ABOVE, targetValue := 150 },
    status := AlertStatus.ACTIVE,
    isActive := true,
    notification :=
      { lastSent := none, sendCount := 0, maxSends := 1, cooldownMinutes := 0 },
    triggeredAt := none,
    triggerCount := 0,
    triggerData := TriggerData.empty,
    expiresAt := none,
    userPreferences :=
      { snoozeUntil := none, isMuted := false, customSound := none, vibration := true },
    stock := some
      { currentPrice := some { price := 100, change := 0 },
        dailyData := { previousClose := some 100 } },
    version := 1 }

/-- Any alert whose snooze test is positive is refused by the gate: the
earlier gate rules only ever return `false` themselves. -/
theorem canTriggerAgain_eq_false_of_snoozeBlocked (a : Alert) (now : Int)
    (h : a.snoozeBlocked now = true) : a.canTriggerAgain now = false := by
  simp [Alert.canTriggerAgain, h]

/-- Claim C1: the spec requires `trigger()` to be an optimistic
compare-and-commit on the `version` field, with the loser of a
concurrent race failing via `ConcurrentModificationError`.  The code
writes unconditionally and defines no such error: when two `trigger()`
calls race on the same committed document (here `baseAlert`, an
eligible alert with `maxSends = 1`), both attempts commit a trigger —
each returns a `TRIGGERED` record with `triggerCount = 1` and
`sendCount = 1` — and the store ends at whichever write landed last. -/
theorem concurrent_trigger_both_commit :
    (concurrentTriggerRace baseAlert 1000 1001 150 151 none none).1.status
        = AlertStatus.TRIGGERED ∧
    (concurrentTriggerRace baseAlert 1000 1001 150 151 none none).2.status
        = AlertStatus.TRIGGERED ∧
    (concurrentTriggerRace baseAlert 1000 1001 150 151 none none).1.triggerCount = 1 ∧
    (concurrentTriggerRace baseAlert 1000 1001 150 151 none none).2.triggerCount = 1 ∧
    (concurrentTriggerRace baseAlert 1000 1001 150 151 none none).1.notification.sendCount = 1 ∧
    (concurrentTriggerRace baseAlert 1000 1001 150 151 none none).2.notification.sendCount = 1 ∧
    (concurrentTriggerRace baseAlert 1000 1001 150 151 none none).1.version = baseAlert.version ∧
    (concurrentTriggerRace baseAlert 1000 1001 150 151 none none).2.version = baseAlert.version := by
  refine ⟨rfl, rfl, rfl, rfl, rfl, rfl, rfl, rfl⟩

/-- Claim C2: for an alert below its send quota, a successful
`trigger()` increments `sendCount` and `triggerCount` by exactly one,
keeps `sendCount ≤ maxSends` (and leaves `maxSends` itself untouched),
and performs the deactivating write `isActive = false` exactly when the
resulting `sendCount` reaches `maxSends`, in the same commit; when the
quota is not yet reached, `isActive` is left as it was. -/
theorem trigger_increments_within_quota (a : Alert) (now : Int) (p : ℚ)
    (v : Option ℚ)
    (h : a.notification.sendCount < a.notification.maxSends) :
    (a.trigger now p v).notification.sendCount = a.notification.sendCount + 1 ∧
    (a.trigger now p v).triggerCount = a.triggerCount + 1 ∧
    (a.trigger now p v).notification.maxSends = a.notification.maxSends ∧
    (a.trigger now p v).notification.sendCount ≤ a.notification.maxSends ∧
    ((a.trigger now p v).notification.sendCount = a.notification.maxSends →
      (a.trigger now p v).isActive = false) ∧
    ((a.trigger now p v).notification.sendCount ≠ a.notification.maxSends →
      (a.trigger now p v).isActive = a.isActive) := by
  by_cases hc : a.notification.sendCount + 1 ≥ a.notification.maxSends
  · have heq : a.notification.sendCount + 1 = a.notification.maxSends :=
      Nat.le_antisymm h hc
    simp [Alert.trigger, hc, heq]
  · have hne : a.notification.sendCount + 1 ≠ a.notification.maxSends := by
      omega
    simp [Alert.trigger, hc, hne]
    omega

/-- Witness for claim C2 at a concrete input: `baseAlert` has
`sendCount = 0 < 1 = maxSends`, and triggering it yields
`sendCount = 1 = maxSends` with `isActive` turned off. -/
theorem trigger_increments_within_quota_witness :
    (baseAlert.trigger 1000 150 none).notification.sendCount
        = baseAlert.notification.sendCount + 1 ∧
    ((baseAlert.trigger 1000 150 none).notification.sendCount
        = baseAlert.notification.maxSends →
      (baseAlert.trigger 1000 150 none).isActive = false) :=
  ⟨(trigger_increments_within_quota baseAlert 1000 150 none (by decide)).1,
   (trigger_increments_within_quota baseAlert 1000 150 none (by decide)).2.2.2.2.1⟩

/-- Claim C3: the spec requires percentage conditions to evaluate to
`false` when `previousClose` is absent or zero.  The code only honours
the absent case (`undefined` arithmetic gives `NaN`, and `NaN ≥ target`
is false); with `previousClose = 0` it divides by zero, and for
`PRICE_PERCENT_UP` with a positive price the quotient is `+Infinity`,
so the condition evaluates to `true`. -/
theorem percent_up_zero_previous_close_true :
    Alert.checkConditions
      { baseAlert with
        condition := { type := ConditionType.PRICE_PERCENT_UP, targetValue := 5 },
        stock := some
          { currentPrice := some { price := 100, change := 0 },
            dailyData := { previousClose := some 0 } } } 100 none = true ∧
    Alert.checkConditions
      { baseAlert with
        condition := { type := ConditionType.PRICE_PERCENT_UP, targetValue := 5 },
        stock := some
          { currentPrice := some { price := 100, change := 0 },
            dailyData := { previousClose := none } } } 100 none = false := by
  constructor <;>
    norm_num [Alert.checkConditions, baseAlert, JSNum.div, JSNum.sub,
      JSNum.mul100, JSNum.ge, toJSNum]

/-- Counterexample to claim C4: `reset()` never writes `isActive`, so a
triggered alert that was deactivated on reaching its quota stays
deactivated after `reset()`, although its status is not `CANCELLED`. -/
theorem reset_does_not_rearm_isActive :
    ({ baseAlert with
        status := AlertStatus.TRIGGERED,
        isActive := false,
        notification := { lastSent := some 500, sendCount := 1, maxSends := 1,
                          cooldownMinutes := 0 } } : Alert).status
      ≠ AlertStatus.CANCELLED ∧
    (Alert.reset
      { baseAlert with
        status := AlertStatus.TRIGGERED,
        isActive := false,
        notification := { lastSent := some 500, sendCount := 1, maxSends := 1,
                          cooldownMinutes := 0 } }).isActive = false := by
  refine ⟨by decide, rfl⟩

/-- Claim C4 as amended: for every alert — `reset()` performs no status
check, so this includes `CANCELLED` ones — `reset()` sets `status` to
`ACTIVE`, clears `triggeredAt` and the trigger-history snapshot, sets
`sendCount` to `0` and `lastSent` to `null`, and leaves `isActive`
unchanged (it does not re-arm it to `true`). -/
theorem reset_fields (a : Alert) :
    (a.reset).status = AlertStatus.ACTIVE ∧
    (a.reset).triggeredAt = none ∧
    (a.reset).triggerData = TriggerData.empty ∧
    (a.reset).notification.sendCount = 0 ∧
    (a.reset).notification.lastSent = none ∧
    (a.reset).isActive = a.isActive ∧
    (a.reset).notification.maxSends = a.notification.maxSends ∧
    (a.reset).notification.cooldownMinutes = a.notification.cooldownMinutes ∧
    (a.reset).expiresAt = a.expiresAt := by
  refine ⟨rfl, rfl, rfl, rfl, rfl, rfl, rfl, rfl, rfl⟩

/-- Counterexample to claim C5: `enable()` performs no status check and
no `InvalidStateError` exists anywhere in the model; called on a
`CANCELLED` alert it changes `status` to `ACTIVE` and `isActive` to
`true` instead of failing and leaving them unchanged. -/
theorem cancelled_not_terminal :
    ({ baseAlert with status := AlertStatus.CANCELLED, isActive := false } : Alert).status
      = AlertStatus.CANCELLED ∧
    (Alert.enable
      { baseAlert with status := AlertStatus.CANCELLED, isActive := false }).status
      = AlertStatus.ACTIVE ∧
    (Alert.enable
      { baseAlert with status := AlertStatus.CANCELLED, isActive := false }).isActive
      = true := by
  refine ⟨rfl, rfl, rfl⟩

/-- Claim C5 as amended: `CANCELLED` is not terminal.  `reset()`,
`enable()` and `disable()` check no status and never fail; from a
`CANCELLED` alert, `enable()` writes `status = ACTIVE` and
`isActive = true`, `disable()` writes `status = DISABLED` and
`isActive = false`, and `reset()` writes `status = ACTIVE` with
`sendCount = 0` and `lastSent = null`. -/
theorem cancelled_transitions_unguarded (a : Alert)
    (_h : a.status = AlertStatus.CANCELLED) :
    (a.enable).status = AlertStatus.ACTIVE ∧
    (a.enable).isActive = true ∧
    (a.disable).status = AlertStatus.DISABLED ∧
    (a.disable).isActive = false ∧
    (a.reset).status = AlertStatus.ACTIVE ∧
    (a.reset).notification.sendCount = 0 ∧
    (a.reset).notification.lastSent = none := by
  refine ⟨rfl, rfl, rfl, rfl, rfl, rfl, rfl⟩

/-- Witness for the amended claim C5 at a concrete cancelled alert. -/
theorem cancelled_transitions_unguarded_witness :
    (Alert.enable
      { baseAlert with status := AlertStatus.CANCELLED, isActive := false }).status
      = AlertStatus.ACTIVE ∧
    (Alert.disable
      { baseAlert with status := AlertStatus.CANCELLED, isActive := false }).isActive
      = false :=
  ⟨(cancelled_transitions_unguarded
      { baseAlert with status := AlertStatus.CANCELLED, isActive := false } rfl).1,
   (cancelled_transitions_unguarded
      { baseAlert with status := AlertStatus.CANCELLED, isActive := false } rfl).2.2.2.1⟩

/-- Claim C6: for an alert that passes every earlier gate rule and has
`lastSent` set and a positive cooldown, the gate passes exactly when
strictly more than `cooldownMinutes` have elapsed since `lastSent`
(times in milliseconds, so `cooldownMinutes` is scaled by `60 * 1000`);
at exactly the boundary, and strictly before it, the gate refuses. -/
theorem cooldown_gate_strict (a : Alert) (now t : Int)
    (hstatus : a.status = AlertStatus.ACTIVE)
    (hexp : a.isExpired now = false)
    (hquota : a.notification.sendCount < a.notification.maxSends)
    (hsnooze : a.snoozeBlocked now = false)
    (hlast : a.notification.lastSent = some t)
    (hcool : 0 < a.notification.cooldownMinutes) :
    (a.canTriggerAgain now = true ↔
      (a.notification.cooldownMinutes : Int) * 60 * 1000 < now - t) := by
  have hq : ¬ a.notification.sendCount ≥ a.notification.maxSends := by omega
  simp [Alert.canTriggerAgain, hstatus, hexp, hq, hsnooze, hlast, hcool]

/-- Witness for claim C6: with a five-minute cooldown and
`lastSent = 0`, the gate refuses at exactly 300000 ms and passes at
300001 ms. -/
theorem cooldown_gate_strict_witness :
    (¬ Alert.canTriggerAgain
        { baseAlert with
          notification := { lastSent := some 0, sendCount := 0, maxSends := 1,
                            cooldownMinutes := 5 } } 300000 = true) ∧
    Alert.canTriggerAgain
        { baseAlert with
          notification := { lastSent := some 0, sendCount := 0, maxSends := 1,
                            cooldownMinutes := 5 } } 300001 = true :=
  ⟨fun hc =>
    absurd
      ((cooldown_gate_strict
          { baseAlert with
            notification := { lastSent := some 0, sendCount := 0, maxSends := 1,
                              cooldownMinutes := 5 } } 300000 0 rfl rfl
          (by decide) rfl rfl (by decide)).mp hc)
      (by decide),
   (cooldown_gate_strict
      { baseAlert with
        notification := { lastSent := some 0, sendCount := 0, maxSends := 1,
                          cooldownMinutes := 5 } } 300001 0 rfl rfl
      (by decide) rfl rfl (by decide)).mpr (by decide)⟩

/-- Counterexample to claim C7: `canTriggerAgain` never reads
`isMuted`, so a muted but otherwise fully eligible alert still passes
the gate, where the claim requires `false`. -/
theorem muted_alert_passes_gate :
    (Alert.userPreferences
      { baseAlert with
        userPreferences := { snoozeUntil := none, isMuted := true,
                             customSound := none, vibration := true } }).isMuted = true ∧
    Alert.canTriggerAgain
      { baseAlert with
        userPreferences := { snoozeUntil := none, isMuted := true,
                             customSound := none, vibration := true } } 1000 = true := by
  refine ⟨rfl, by decide⟩

/-- Claim C7 as amended: the gate returns `false` whenever
`snoozeUntil` is set and strictly in the future, regardless of every
other rule and of the condition outcome; `isMuted`, however, is never
consulted — flipping it does not change the gate at all. -/
theorem snooze_blocks_gate_and_mute_ignored (a : Alert) (now s : Int) (b : Bool)
    (hs : a.userPreferences.snoozeUntil = some s) (hfut : now < s) :
    a.canTriggerAgain now = false ∧
    Alert.canTriggerAgain
      { a with userPreferences := { a.userPreferences with isMuted := b } } now
      = a.canTriggerAgain now := by
  refine ⟨?_, rfl⟩
  exact canTriggerAgain_eq_false_of_snoozeBlocked a now
    (by simp [Alert.snoozeBlocked, hs, hfut])

/-- Witness for the amended claim C7: an alert snoozed until time 2000
is refused by the gate at time 1000. -/
theorem snooze_blocks_gate_and_mute_ignored_witness :
    Alert.canTriggerAgain
      { baseAlert with
        userPreferences := { snoozeUntil := some 2000, isMuted := false,
                             customSound := none, vibration := true } } 1000 = false :=
  (snooze_blocks_gate_and_mute_ignored
    { baseAlert with
      userPreferences := { snoozeUntil := some 2000, isMuted := false,
                           customSound := none, vibration := true } }
    1000 2000 false rfl (by decide)).1

/-- Counterexample to claim C8: `isExpired` compares with a strict `<`,
so an otherwise fully eligible alert whose `expiresAt` equals `now` is
still allowed to fire, where the claim requires ineligibility. -/
theorem expiry_boundary_still_eligible :
    ({ baseAlert with expiresAt := some 1000 } : Alert).expiresAt = some 1000 ∧
    Alert.canTriggerAgain { baseAlert with expiresAt := some 1000 } 1000 = true := by
  refine ⟨rfl, by decide⟩

/-- Claim C8 as amended: the expiry rule passes exactly when
`expiresAt` is absent or `now ≤ expiresAt` — the boundary `expiresAt =
now` is on the eligible side — and the gate only passes when the expiry
rule does. -/
theorem expiry_gate_boundary (a : Alert) (now : Int) :
    (a.isExpired now = false ↔
      (a.expiresAt = none ∨ ∃ e, a.expiresAt = some e ∧ now ≤ e)) ∧
    (a.canTriggerAgain now = true → a.isExpired now = false) := by
  constructor
  · cases h : a.expiresAt with
    | none => simp [Alert.isExpired, h]
    | some e =>
      simp [Alert.isExpired, h]
  · intro hgate
    by_contra hexp
    have hx : a.isExpired now = true := by
      cases hb : a.isExpired now
      · exact absurd hb hexp
      · rfl
    rw [Alert.canTriggerAgain] at hgate
    simp [hx] at hgate

/-- Witness for the amended claim C8: applied to an alert expiring at
time 1000 and `now = 1000`, the boundary is on the eligible side. -/
theorem expiry_gate_boundary_witness :
    Alert.isExpired { baseAlert with expiresAt := some 1000 } 1000 = false :=
  (expiry_gate_boundary { baseAlert with expiresAt := some 1000 } 1000).1.mpr
    (Or.inr ⟨1000, rfl, by decide⟩)

/-- Counterexample to claim C9: a snapshot with `volume = 0` is present
but falsy, so `VOLUME_BELOW` with target 100 evaluates to `false`
although `0 ≤ 100`; the claim requires `true`. -/
theorem volume_zero_evaluates_false :
    Alert.checkConditions
      { baseAlert with
        condition := { type := ConditionType.VOLUME_BELOW, targetValue := 100 } }
      100 (some 0) = false := by
  norm_num [Alert.checkConditions, baseAlert]

/-- Claim C9 as amended: with the stock and its price block present,
`PRICE_ABOVE` is met exactly when `price ≥ target` (the boundary counts
as met), while `VOLUME_ABOVE` and `VOLUME_BELOW` are met exactly when
the volume is present, nonzero (JS truthiness of `volume && ...`), and
the inclusive comparison holds; in particular a present volume of `0`
always evaluates to `false`. -/
theorem inclusive_thresholds_and_truthy_volume (a : Alert) (st : StockDoc)
    (cp : StockCurrentPrice) (p v : ℚ) (vol : Option ℚ)
    (hst : a.stock = some st) (hcp : st.currentPrice = some cp) :
    (a.condition.type = ConditionType.PRICE_ABOVE →
      a.checkConditions p vol = decide (a.condition.targetValue ≤ p)) ∧
    (a.condition.type = ConditionType.VOLUME_ABOVE →
      a.checkConditions p (some v)
        = (decide ¬(v = 0) && decide (a.condition.targetValue ≤ v))) ∧
    (a.condition.type = ConditionType.VOLUME_BELOW →
      a.checkConditions p (some v)
        = (decide ¬(v = 0) && decide (v ≤ a.condition.targetValue))) := by
  refine ⟨fun h => ?_, fun h => ?_, fun h => ?_⟩ <;>
    · by_cases hv : v = 0 <;>
        simp [Alert.checkConditions, hst, hcp, h, hv]

/-- Witness for the amended claim C9: `PRICE_ABOVE` at exactly the
target evaluates to `true`, and `VOLUME_BELOW` with a nonzero volume
under the target evaluates to `true`. -/
theorem inclusive_thresholds_and_truthy_volume_witness :
    Alert.checkConditions baseAlert 150 none = decide ((150 : ℚ) ≤ 150) ∧
    Alert.checkConditions
      { baseAlert with
        condition := { type := ConditionType.VOLUME_BELOW, targetValue := 100 } }
      100 (some 50) = (decide ¬((50 : ℚ) = 0) && decide ((50 : ℚ) ≤ 100)) :=
  ⟨(inclusive_thresholds_and_truthy_volume baseAlert
      { currentPrice := some { price := 100, change := 0 },
        dailyData := { previousClose := some 100 } }
      { price := 100, change := 0 } 150 50 none rfl rfl).1 rfl,
   (inclusive_thresholds_and_truthy_volume
      { baseAlert with
        condition := { type := ConditionType.VOLUME_BELOW, targetValue := 100 } }
      { currentPrice := some { price := 100, change := 0 },
        dailyData := { previousClose := some 100 } }
      { price := 100, change := 0 } 100 50 none rfl rfl).2.2 rfl⟩

/-- Claim C10: `reset()` leaves the whole `userPreferences` block —
`snoozeUntil` and `isMuted` in particular — untouched, so an alert
whose snooze still lies in the future keeps being refused by the gate
even though the reset put it back to `ACTIVE` with `sendCount = 0`. -/
theorem reset_preserves_user_suppression (a : Alert) (now s : Int)
    (hs : a.userPreferences.snoozeUntil = some s) (hfut : now < s) :
    (a.reset).userPreferences = a.userPreferences ∧
    (a.reset).status = AlertStatus.ACTIVE ∧
    (a.reset).notification.sendCount = 0 ∧
    (a.reset).canTriggerAgain now = false := by
  refine ⟨rfl, rfl, rfl, ?_⟩
  exact canTriggerAgain_eq_false_of_snoozeBlocked (a.reset) now
    (by simp [Alert.snoozeBlocked, Alert.reset, hs, hfut])

/-- Witness for claim C10: a triggered alert snoozed until time 2000,
reset at time 1000, is back to `ACTIVE` with `sendCount = 0` but still
refused by the gate. -/
theorem reset_preserves_user_suppression_witness :
    (Alert.reset
      { baseAlert with
        status := AlertStatus.TRIGGERED,
        userPreferences := { snoozeUntil := some 2000, isMuted := false,
                             customSound := none, vibration := true } }).userPreferences
      = ({ baseAlert with
            status := AlertStatus.TRIGGERED,
            userPreferences := { snoozeUntil := some 2000, isMuted := false,
                                 customSound := none, vibration := true } } : Alert).userPreferences ∧
    (Alert.reset
      { baseAlert with
        status := AlertStatus.TRIGGERED,
        userPreferences := { snoozeUntil := some 2000, isMuted := false,
                             customSound := none, vibration := true } }).canTriggerAgain 1000
      = false :=
  ⟨(reset_preserves_user_suppression
      { baseAlert with
        status := AlertStatus.TRIGGERED,
        userPreferences := { snoozeUntil := some 2000, isMuted := false,
                             customSound := none, vibration := true } }
      1000 2000 rfl (by decide)).1,
   (reset_preserves_user_suppression
      { baseAlert with
        status := AlertStatus.TRIGGERED,
        userPreferences := { snoozeUntil := some 2000, isMuted := false,
                             customSound := none, vibration := true } }
      1000 2000 rfl (by decide)).2.2.2⟩
